import Mathlib

/-!
Verification of the curated-hub content synchronization engine.

This file is a shallow embedding of the Python sources under
`src/sagemaker/jumpstart/curated_hub/`:

* `content_copy.py` — the `ContentCopier` (copy-plan builder and transfer
  executor),
* `jumpstart_curated_public_hub.py` — the `JumpStartCuratedPublicHub`
  orchestrator (sync, batch import, delete pipelines),
* `hub_client.py` — the `CuratedHubClient` catalog wrapper.

External effects (S3 head/copy/list/delete calls, catalog describe/list calls)
are modelled as explicit oracles or state-transition functions; exceptions are
modelled with `Except`.  Python methods whose names begin with an underscore
drop the underscore here.
-/

namespace CuratedHub

/-- Modelled from the spec: the `Location` value type of
`accessors/s3_object_reference.py` (that file is not among the sources): an
immutable (container, path) pair.  A trailing separator on the path marks a
directory reference. -/
structure S3ObjectLocation where
  bucket : String
  key : String
deriving DecidableEq, Repr

/-- Modelled from the spec: "a trailing separator marks it as a directory
reference" (the `S3ObjectLocation.is_directory` method of the missing
`s3_object_reference.py`; `_is_s3_key_a_prefix` in
`jumpstart_curated_public_hub.py` confirms the trailing-slash convention). -/
def S3ObjectLocation.is_directory (l : S3ObjectLocation) : Bool :=
  l.key.data.getLast? == some '/'

/-- Modelled from the spec: the `get_filename` method of the missing
`s3_object_reference.py` — the last path component of the key, i.e. the
characters after the final separator. -/
def S3ObjectLocation.get_filename (l : S3ObjectLocation) : String :=
  ⟨(l.key.data.reverse.takeWhile (fun c => decide (c ≠ '/'))).reverse⟩

/-- Result of `s3:HeadObject` on one object: an ETag, a 404, or another
client error (`ClientError` whose code is not "404"). -/
inductive HeadResult where
  | found (etag : String)
  | notFound
  | headError (code : String)
deriving DecidableEq, Repr

/-- Whether a head call ended in a client error other than a 404. -/
def HeadResult.is_head_error : HeadResult → Bool
  | .headError _ => true
  | _ => false

/-- The S3-facing oracles a `ContentCopier` run depends on: the head call used
for ETag comparison and the outcome of an attempted `s3:CopyObject`. -/
structure CopyEnv where
  head : S3ObjectLocation → HeadResult
  copyRes : S3ObjectLocation → S3ObjectLocation → Except String Unit

/-- `ContentCopier._get_s3_object_etag` (`content_copy.py` lines 359-377):
head the object and return its ETag; a 404 yields `none`; any other client
error is raised. -/
def get_s3_object_etag (env : CopyEnv) (s3_object : S3ObjectLocation) :
    Except String (Option String) :=
  match env.head s3_object with
  | .found etag => .ok (some etag)
  | .notFound => .ok none
  | .headError code => .error code

/-- `ContentCopier.is_s3_object_etag_different` (`content_copy.py` lines
352-357): head source then destination and compare the two optional ETags. -/
def is_s3_object_etag_different (env : CopyEnv) (src dst : S3ObjectLocation) :
    Except String Bool :=
  match get_s3_object_etag env src with
  | .error e => .error e
  | .ok src_etag =>
    match get_s3_object_etag env dst with
    | .error e => .error e
    | .ok dst_etag => .ok (decide (src_etag ≠ dst_etag))

/-- Per-task result recorded by the transfer executor: the task either skipped
the copy (identical ETags) or performed it. -/
inductive TransferOutcome where
  | skipped
  | copied
deriving DecidableEq, Repr

/-- `ContentCopier._copy_s3_reference` (`content_copy.py` lines 316-350): skip
when the ETags are not different, otherwise call `s3:CopyObject` (which may
itself fail).  The second component records the copy calls issued. -/
def copy_s3_reference (env : CopyEnv) (src dst : S3ObjectLocation) :
    Except String TransferOutcome × List (S3ObjectLocation × S3ObjectLocation) :=
  match is_s3_object_etag_different env src dst with
  | .error e => (.error e, [])
  | .ok false => (.ok .skipped, [])
  | .ok true =>
    match env.copyRes src dst with
    | .ok _ => (.ok .copied, [(src, dst)])
    | .error e => (.error e, [(src, dst)])

/-- `CopyContentConfig` (`content_copy.py` lines 41-48). -/
structure CopyContentConfig where
  src : S3ObjectLocation
  dst : S3ObjectLocation
  logging_name : String
deriving DecidableEq, Repr

/-- One executor task: `_copy_s3_reference` applied to a config's source and
destination (the submission made in `_parallel_execute_copy_configs`). -/
def run_copy_config (env : CopyEnv) (c : CopyContentConfig) :
    Except String TransferOutcome × List (S3ObjectLocation × S3ObjectLocation) :=
  copy_s3_reference env c.src c.dst

/-- One entry of the `failed_copies` list built in
`_parallel_execute_copy_configs` / `_import_models`: the captured exception and
its formatted traceback. -/
structure FailureEntry where
  exceptionMsg : String
  tracebackMsg : String
deriving DecidableEq, Repr

/-- `traceback.TracebackException.from_exception(exception).format()`,
modelled as a rendering determined by the exception. -/
def format_traceback (e : String) : String :=
  "Traceback (most recent call last): " ++ e

/-- The dictionary appended to `failed_copies` for one failed future. -/
def mkFailureEntry (e : String) : FailureEntry :=
  { exceptionMsg := e, tracebackMsg := format_traceback e }

/-- Whether an `Except` value carries a result rather than an exception. -/
def is_ok {ε α : Type} : Except ε α → Bool
  | .ok _ => true
  | .error _ => false

/-- The failure entry of one finished unit of work, if it raised. -/
def failure_of_error {α : Type} : Except String α → Option FailureEntry
  | .error e => some (mkFailureEntry e)
  | .ok _ => none

/-- Extracts the failure entry of one finished task, if it failed. -/
def failureOf (r : Except String TransferOutcome ×
    List (S3ObjectLocation × S3ObjectLocation)) : Option FailureEntry :=
  failure_of_error r.1

/-- `ContentCopier._parallel_execute_copy_configs` (`content_copy.py` lines
275-314): run every config, wait for all of them, collect every failure, and
raise one `RuntimeError` carrying the full failure list iff any task failed.
The bounded thread pool interleaves tasks but each task is independent, so the
pool is modelled by running every task and collecting all results.  The second
component is the multiset of copy calls issued across all tasks. -/
def parallel_execute_copy_configs (env : CopyEnv)
    (copy_configs : List CopyContentConfig) :
    Except (List FailureEntry) Unit × List (S3ObjectLocation × S3ObjectLocation) :=
  let tasks := copy_configs.map (run_copy_config env)
  let failed_copies := tasks.filterMap failureOf
  (if failed_copies.isEmpty then .ok () else .error failed_copies,
   (tasks.map Prod.snd).flatten)

/-- Modelled from the spec: the marker value of `accessors/constants.py`
(absent from the sources) that flags the uncompressed-directory artifact
storage mode; only equality with the specs' data-type field matters. -/
def UNCOMPRESSED_ARTIFACTS_VALUE : String := "S3Prefix"

/-- The fields of `JumpStartModelSpecs` consumed by the content-copy core: the
identifying key, training support, the artifact-storage mode per lifecycle
stage, and whether a pre-packed inference script is embedded in the artifact
(the `supports_prepacked_inference()` predicate). -/
structure JumpStartModelSpecs where
  model_id : String
  version : String
  training_supported : Bool
  hosting_artifact_s3_data_type : String
  training_artifact_s3_data_type : String
  prepacked_inference : Bool
deriving DecidableEq, Repr

/-- `JumpStartModelSpecs.supports_prepacked_inference()`. -/
def JumpStartModelSpecs.supports_prepacked_inference (m : JumpStartModelSpecs) : Bool :=
  m.prepacked_inference

/-- The capability interface of `ModelDependencyS3Accessor`: one `Location`
per dependency class of a model version (`curated_hub_s3_accessor.py` is the
destination variant among the sources; the source variant implements the same
interface).  The field names keep the typo of the source
(`get_uncompresssed_…`). -/
structure ModelDependencyS3Accessor where
  get_inference_artifact_s3_reference : JumpStartModelSpecs → S3ObjectLocation
  get_inference_script_s3_reference : JumpStartModelSpecs → S3ObjectLocation
  get_training_artifact_s3_reference : JumpStartModelSpecs → S3ObjectLocation
  get_training_script_s3_reference : JumpStartModelSpecs → S3ObjectLocation
  get_uncompresssed_inference_artifact_s3_reference : JumpStartModelSpecs → S3ObjectLocation
  get_uncompresssed_training_artifact_s3_reference : JumpStartModelSpecs → S3ObjectLocation
  get_default_training_dataset_s3_reference : JumpStartModelSpecs → S3ObjectLocation
  get_demo_notebook_s3_reference : JumpStartModelSpecs → S3ObjectLocation
  get_markdown_s3_reference : JumpStartModelSpecs → S3ObjectLocation

/-- The pure context of a `ContentCopier` (`content_copy.py` lines 50-67): the
two accessors and the S3 listing call `find_objects_under_prefix` used by
`_get_s3_object_keys_under_prefix`. -/
structure ContentCopier where
  src_s3_accessor : ModelDependencyS3Accessor
  dst_s3_accessor : ModelDependencyS3Accessor
  find_objects_under_dir : S3ObjectLocation → List String

/-- `ContentCopier._get_s3_dir_copy_configs` (`content_copy.py` lines
184-198): one task per listed object under the source directory; the
destination key appends the object's filename to the destination prefix,
inserting a separator unless the prefix is already directory-shaped. -/
def get_s3_dir_copy_configs (listKeys : S3ObjectLocation → List String)
    (srcDir dstDir : S3ObjectLocation) : List CopyContentConfig :=
  (listKeys srcDir).map (fun full_src_key =>
    let src_reference : S3ObjectLocation := ⟨srcDir.bucket, full_src_key⟩
    let dst_key :=
      if dstDir.is_directory then dstDir.key ++ src_reference.get_filename
      else dstDir.key ++ "/" ++ src_reference.get_filename
    { src := src_reference
      dst := ⟨dstDir.bucket, dst_key⟩
      logging_name := "uncompressed artifact " ++ src_reference.get_filename })

/-- `ContentCopier._get_copy_configs_for_inference_dependencies`
(`content_copy.py` lines 85-133): the inference artifact (directory-expanded
when uncompressed), then the inference script only when prepack is not
supported. -/
def get_copy_configs_for_inference_dependencies (c : ContentCopier)
    (m : JumpStartModelSpecs) : List CopyContentConfig :=
  (if m.hosting_artifact_s3_data_type = UNCOMPRESSED_ARTIFACTS_VALUE then
    get_s3_dir_copy_configs c.find_objects_under_dir
      (c.src_s3_accessor.get_uncompresssed_inference_artifact_s3_reference m)
      (c.dst_s3_accessor.get_uncompresssed_inference_artifact_s3_reference m)
  else
    [{ src := c.src_s3_accessor.get_inference_artifact_s3_reference m
       dst := c.dst_s3_accessor.get_inference_artifact_s3_reference m
       logging_name := "inference artifact" }])
  ++ (if m.supports_prepacked_inference then []
      else
        [{ src := c.src_s3_accessor.get_inference_script_s3_reference m
           dst := c.dst_s3_accessor.get_inference_script_s3_reference m
           logging_name := "inference script" }])

/-- Python `str.replace(old, new, 1)`: replace the first occurrence of `old`
in `s` (used for the dataset key rewrite in
`_get_copy_configs_for_training_dataset`). -/
def replace_first (s old new : String) : String :=
  match s.splitOn old with
  | [] => s
  | [_] => s
  | p :: rest => p ++ new ++ String.intercalate old rest

/-- `ContentCopier._get_copy_configs_for_training_dataset` (`content_copy.py`
lines 200-222): one task per object under the source dataset directory, its
destination key obtained by substituting the destination prefix for the first
occurrence of the source prefix. -/
def get_copy_configs_for_training_dataset (c : ContentCopier)
    (m : JumpStartModelSpecs) : List CopyContentConfig :=
  let srcDir := c.src_s3_accessor.get_default_training_dataset_s3_reference m
  let dstDir := c.dst_s3_accessor.get_default_training_dataset_s3_reference m
  (c.find_objects_under_dir srcDir).map (fun full_key =>
    { src := ⟨srcDir.bucket, full_key⟩
      dst := ⟨dstDir.bucket, replace_first full_key srcDir.key dstDir.key⟩
      logging_name := "training dataset" })

/-- `ContentCopier._get_copy_configs_for_training_dependencies`
(`content_copy.py` lines 135-182): the training artifact (directory-expanded
when uncompressed), then — unconditionally — the training script, then the
training dataset expansion. -/
def get_copy_configs_for_training_dependencies (c : ContentCopier)
    (m : JumpStartModelSpecs) : List CopyContentConfig :=
  (if m.training_artifact_s3_data_type = UNCOMPRESSED_ARTIFACTS_VALUE then
    get_s3_dir_copy_configs c.find_objects_under_dir
      (c.src_s3_accessor.get_uncompresssed_training_artifact_s3_reference m)
      (c.dst_s3_accessor.get_uncompresssed_training_artifact_s3_reference m)
  else
    [{ src := c.src_s3_accessor.get_training_artifact_s3_reference m
       dst := c.dst_s3_accessor.get_training_artifact_s3_reference m
       logging_name := "training artifact" }])
  ++ [{ src := c.src_s3_accessor.get_training_script_s3_reference m
        dst := c.dst_s3_accessor.get_training_script_s3_reference m
        logging_name := "training script" }]
  ++ get_copy_configs_for_training_dataset c m

/-- `ContentCopier._get_copy_configs_for_demo_notebook_dependencies`
(`content_copy.py` lines 239-257). -/
def get_copy_configs_for_demo_notebook_dependencies (c : ContentCopier)
    (m : JumpStartModelSpecs) : List CopyContentConfig :=
  [{ src := c.src_s3_accessor.get_demo_notebook_s3_reference m
     dst := c.dst_s3_accessor.get_demo_notebook_s3_reference m
     logging_name := "demo notebook" }]

/-- `ContentCopier._get_copy_configs_for_markdown_dependencies`
(`content_copy.py` lines 259-273). -/
def get_copy_configs_for_markdown_dependencies (c : ContentCopier)
    (m : JumpStartModelSpecs) : List CopyContentConfig :=
  [{ src := c.src_s3_accessor.get_markdown_s3_reference m
     dst := c.dst_s3_accessor.get_markdown_s3_reference m
     logging_name := "markdown" }]

/-- The copy plan assembled by
`ContentCopier.copy_hub_content_dependencies_to_hub_bucket` (`content_copy.py`
lines 69-83): inference, demo notebook and markdown configs, plus the training
configs when training is supported. -/
def copy_hub_content_dependencies_configs (c : ContentCopier)
    (m : JumpStartModelSpecs) : List CopyContentConfig :=
  get_copy_configs_for_inference_dependencies c m
  ++ get_copy_configs_for_demo_notebook_dependencies c m
  ++ get_copy_configs_for_markdown_dependencies c m
  ++ (if m.training_supported then get_copy_configs_for_training_dependencies c m
      else [])

/-- `JumpStartCuratedPublicHub._import_models`
(`jumpstart_curated_public_hub.py` lines 221-249): submit `_import_model` for
every spec, wait for all of them, collect every failure, and raise one
`RuntimeError` carrying the full failure list iff any import failed.  The
per-model pipeline is abstracted by the oracle `runOne`. -/
def import_models (runOne : JumpStartModelSpecs → Except String Unit)
    (model_specs : List JumpStartModelSpecs) : Except (List FailureEntry) Unit :=
  let tasks := model_specs.map runOne
  let failed_imports := tasks.filterMap failure_of_error
  if failed_imports.isEmpty then .ok () else .error failed_imports

/-- One dependency record of a hub content document (`hub_model_specs.py`). -/
structure Dependency where
  DependencyOriginPath : String
  DependencyCopyPath : String
  DependencyType : String
deriving DecidableEq, Repr

/-- The parsed hub content document, reduced to the `Dependencies` field that
the delete pipeline consumes. -/
structure HubContentDocument where
  dependencies : List Dependency
deriving DecidableEq, Repr

/-- Result of `CuratedHubClient.describe_model_version` (`hub_client.py` lines
84-91): the entry with its document, a `ResourceNotFound` client error, or a
client error with another code. -/
inductive DescribeResult where
  | found (doc : HubContentDocument)
  | notFound
  | describeError (code : String)
deriving DecidableEq, Repr

/-- Whether a describe call ended in a client error other than
`ResourceNotFound`. -/
def DescribeResult.is_describe_error : DescribeResult → Bool
  | .describeError _ => true
  | _ => false

/-- `JumpStartCuratedPublicHub._model_needs_update`
(`jumpstart_curated_public_hub.py` lines 210-219): present → no update needed;
`ResourceNotFound` → update needed; any other client error is raised. -/
def model_needs_update (r : DescribeResult) : Except String Bool :=
  match r with
  | .found _ => .ok false
  | .notFound => .ok true
  | .describeError code => .error code

/-- Python `list(filter(pred, xs))` with a predicate that may raise: the
predicate is evaluated left to right and the first exception propagates
immediately, abandoning the traversal. -/
def list_filter_raising (p : JumpStartModelSpecs → Except String Bool) :
    List JumpStartModelSpecs → Except String (List JumpStartModelSpecs)
  | [] => .ok []
  | m :: rest =>
    match p m with
    | .error e => .error e
    | .ok true =>
      match list_filter_raising p rest with
      | .error e => .error e
      | .ok l => .ok (m :: l)
    | .ok false => list_filter_raising p rest

/-- `JumpStartCuratedPublicHub.sync` (`jumpstart_curated_public_hub.py` lines
171-193), reduced to its version-selection decision: with `force_update` the
whole requested list is handed to `_import_models`; otherwise the list is
filtered by `_model_needs_update` first.  The returned list is the list of
model versions that get imported. -/
def sync (describe : JumpStartModelSpecs → DescribeResult) (force_update : Bool)
    (model_specs : List JumpStartModelSpecs) :
    Except String (List JumpStartModelSpecs) :=
  if force_update then .ok model_specs
  else list_filter_raising (fun m => model_needs_update (describe m)) model_specs

/-- The destination catalog state: the live versions of each model id. -/
structure HubCatalog where
  versions : String → List String

/-- One observable catalog-facing step of the import pipeline. -/
inductive HubOp where
  | deleteVersion (model_id version : String)
  | copyDependencies (model_id : String)
  | registerEntry (model_id version : String)
deriving DecidableEq, Repr

/-- `CuratedHubClient.delete_all_versions_of_model` (`hub_client.py` lines
93-108): list the content versions (empty when the content does not exist) and
delete each one. -/
def delete_all_versions_of_model (cat : HubCatalog) (model_id : String) :
    HubCatalog × List HubOp :=
  let content_versions := cat.versions model_id
  (⟨fun i => if i = model_id then [] else cat.versions i⟩,
   content_versions.map (fun v => .deleteVersion model_id v))

/-- `sm_client.import_hub_content` as called by
`_import_public_model_to_hub` (`jumpstart_curated_public_hub.py` lines
269-294): registers a new catalog version of the model. -/
def import_hub_content_entry (cat : HubCatalog) (model_id version : String) :
    HubCatalog × List HubOp :=
  (⟨fun i => if i = model_id then cat.versions i ++ [version] else cat.versions i⟩,
   [.registerEntry model_id version])

/-- `JumpStartCuratedPublicHub._import_model`
(`jumpstart_curated_public_hub.py` lines 251-267): first delete every existing
catalog version of the model id, then copy the dependencies (whose outcome is
the oracle `copyRes`; a failure propagates), then register the new entry. -/
def import_model (cat : HubCatalog) (m : JumpStartModelSpecs)
    (copyRes : Except String Unit) : Except String (HubCatalog × List HubOp) :=
  let deleted := delete_all_versions_of_model cat m.model_id
  match copyRes with
  | .error e => .error e
  | .ok _ =>
    let registered := import_hub_content_entry deleted.1 m.model_id m.version
    .ok (registered.1,
      deleted.2 ++ [.copyDependencies m.model_id] ++ registered.2)

/-- The response of `s3:DeleteObjects`: the raw `Errors` field, which may be
absent, present and empty, or present and non-empty. -/
structure DeleteResponse where
  errorsField : Option (List String)
deriving DecidableEq, Repr

/-- One observable destructive step of the delete pipeline. -/
inductive DeleteOp where
  | bulkDelete (keys : List String)
  | deleteVersion (model_id version : String)
deriving DecidableEq, Repr

/-- The oracles the delete pipeline depends on: the catalog describe result,
the URI parser of the missing `s3_object_reference.py`, the S3 listing call,
and the bulk-delete response for a given key list. -/
structure DeleteModelEnv where
  describeRes : DescribeResult
  parse_uri : String → S3ObjectLocation
  find_objects_under_dir : S3ObjectLocation → List String
  delete_objects : List String → DeleteResponse

/-- `JumpStartCuratedPublicHub._is_s3_key_a_prefix`
(`jumpstart_curated_public_hub.py` lines 388-390): whether the key is
directory-shaped, i.e. Python `s3_key.endswith("/")` — the key's last
character is the separator. -/
def is_s3_key_a_dir (s3_key : String) : Bool :=
  s3_key.data.getLast? == some '/'

/-- `JumpStartCuratedPublicHub._format_dependency_dst_uris_for_delete_objects`
(`jumpstart_curated_public_hub.py` lines 365-386): directory-shaped copy paths
are expanded by listing, object-shaped ones contribute their single key. -/
def format_dependency_dst_uris_for_delete_objects (env : DeleteModelEnv)
    (dependency : Dependency) : List String :=
  let s3_object_reference := env.parse_uri dependency.DependencyCopyPath
  if is_s3_key_a_dir s3_object_reference.key then
    env.find_objects_under_dir s3_object_reference
  else
    [s3_object_reference.key]

/-- The flat list of destination keys the delete pipeline hands to
`s3:DeleteObjects` for one hub content document. -/
def dependency_s3_keys_of (env : DeleteModelEnv) (doc : HubContentDocument) :
    List String :=
  (doc.dependencies.map (format_dependency_dst_uris_for_delete_objects env)).flatten

/-- `JumpStartCuratedPublicHub._delete_model_dependencies_no_content_noop`
(`jumpstart_curated_public_hub.py` lines 321-348): a `ResourceNotFound`
describe returns immediately with no S3 call; otherwise the manifest is
expanded into keys, `s3:DeleteObjects` is called once, and an `Errors` key in
the response raises.  The second component records the destructive S3 calls
issued. -/
def delete_model_dependencies_no_content_noop (env : DeleteModelEnv)
    (m : JumpStartModelSpecs) : Except String Unit × List DeleteOp :=
  match env.describeRes with
  | .notFound => (.ok (), [])
  | .describeError code => (.error code, [])
  | .found doc =>
    let dependency_s3_keys := dependency_s3_keys_of env doc
    let delete_response := env.delete_objects dependency_s3_keys
    match delete_response.errorsField with
    | some errs =>
      (.error ("Failed to delete all dependencies of model " ++ m.model_id
        ++ " : " ++ String.intercalate ", " errs),
       [.bulkDelete dependency_s3_keys])
    | none => (.ok (), [.bulkDelete dependency_s3_keys])

/-- `JumpStartCuratedPublicHub._delete_model_from_curated_hub`
(`jumpstart_curated_public_hub.py` lines 304-319) as invoked by
`delete_models` (dependencies deleted first, then every catalog version): a
failure while deleting dependencies propagates before any catalog version is
removed. -/
def delete_model_from_curated_hub (env : DeleteModelEnv)
    (m : JumpStartModelSpecs) (cat : HubCatalog) :
    Except String Unit × List DeleteOp :=
  match delete_model_dependencies_no_content_noop env m with
  | (.error e, ops) => (.error e, ops)
  | (.ok _, ops) =>
    (.ok (), ops ++ (cat.versions m.model_id).map
      (fun v => .deleteVersion m.model_id v))

end CuratedHub

deriving instance DecidableEq for Except

namespace CuratedHub

/-- Concrete transfer environment used to exercise the executor: the source
object exists, every destination is absent, and every copy call fails. -/
def c1CexEnv : CopyEnv :=
  ⟨fun l => if l.key = "s" then .found "etag" else .notFound,
   fun _ _ => .error "boom"⟩

/-- A concrete transfer task labelled "task A". -/
def c1CfgA : CopyContentConfig := ⟨⟨"b", "s"⟩, ⟨"b", "d1"⟩, "task A"⟩

/-- A concrete transfer task labelled "task B" with a different destination. -/
def c1CfgB : CopyContentConfig := ⟨⟨"b", "s"⟩, ⟨"b", "d2"⟩, "task B"⟩

/-- Concrete transfer environment where every head call sees the same ETag. -/
def c1WEnv : CopyEnv := ⟨fun _ => .found "same", fun _ _ => .ok ()⟩

/-- A concrete transfer task. -/
def c1WCfg : CopyContentConfig := ⟨⟨"b", "s"⟩, ⟨"b", "d"⟩, "task"⟩

/-- Concrete transfer environment: the source exists, the destination is
absent, copies succeed. -/
def c2WEnv : CopyEnv :=
  ⟨fun l => if l.key = "src" then .found "e1" else .notFound, fun _ _ => .ok ()⟩

/-- A concrete source location. -/
def c2WSrc : S3ObjectLocation := ⟨"b", "src"⟩

/-- A concrete destination location. -/
def c2WDst : S3ObjectLocation := ⟨"b", "dst"⟩

/-- Concrete first-run environment: the source exists, the destination does
not yet, copies succeed. -/
def c3WEnv1 : CopyEnv :=
  ⟨fun l => if l.key = "src" then .found "n" else .notFound, fun _ _ => .ok ()⟩

/-- Concrete second-run environment: source and destination now carry the same
ETag. -/
def c3WEnv2 : CopyEnv := ⟨fun _ => .found "n", fun _ _ => .ok ()⟩

/-- A concrete one-task copy plan. -/
def c3WCfgs : List CopyContentConfig := [⟨⟨"b", "src"⟩, ⟨"b", "dst"⟩, "artifact"⟩]

/-- Concrete listing of a source directory containing two objects. -/
def c4WListKeys : S3ObjectLocation → List String :=
  fun _ => ["a/b/x.bin", "a/b/y.bin"]

/-- Concrete source directory location. -/
def c4WSrcDir : S3ObjectLocation := ⟨"pub", "a/b/"⟩

/-- Concrete accessor resolving every dependency class to a fixed location. -/
def c5Accessor : ModelDependencyS3Accessor :=
  ⟨fun _ => ⟨"b", "ia"⟩, fun _ => ⟨"b", "is"⟩, fun _ => ⟨"b", "ta"⟩,
   fun _ => ⟨"b", "ts"⟩, fun _ => ⟨"b", "uia/"⟩, fun _ => ⟨"b", "uta/"⟩,
   fun _ => ⟨"b", "ds/"⟩, fun _ => ⟨"b", "nb"⟩, fun _ => ⟨"b", "md"⟩⟩

/-- Concrete content copier over empty directory listings. -/
def c5Copier : ContentCopier := ⟨c5Accessor, c5Accessor, fun _ => []⟩

/-- A concrete model descriptor whose inference artifact is pre-packed and
which supports training. -/
def c5CexSpec : JumpStartModelSpecs := ⟨"m", "1", true, "tar", "tar", true⟩

/-- A concrete model descriptor whose inference artifact is not pre-packed and
which supports training. -/
def c5WSpec : JumpStartModelSpecs := ⟨"m", "1", true, "tar", "tar", false⟩

/-- Concrete catalog lookup: the model id "old" is already present, everything
else is absent. -/
def c6WDescribe : JumpStartModelSpecs → DescribeResult :=
  fun m => if m.model_id = "old" then .found ⟨[]⟩ else .notFound

/-- A concrete requested batch of two model versions. -/
def c6WSpecs : List JumpStartModelSpecs :=
  [⟨"old", "1", false, "t", "t", false⟩, ⟨"new", "1", false, "t", "t", false⟩]

/-- Concrete destination catalog holding two live versions of model "mid". -/
def c7CatW : HubCatalog := ⟨fun i => if i = "mid" then ["1", "2"] else []⟩

/-- A concrete model version to import. -/
def c7SpecW : JumpStartModelSpecs := ⟨"mid", "3", false, "t", "t", false⟩

/-- The catalog state produced by importing `c7SpecW` into `c7CatW`. -/
def c7CatW' : HubCatalog :=
  ⟨fun i =>
    if i = "mid" then (if i = "mid" then [] else c7CatW.versions i) ++ ["3"]
    else if i = "mid" then [] else c7CatW.versions i⟩

/-- The operation trace produced by importing `c7SpecW` into `c7CatW`. -/
def c7TrW : List HubOp :=
  [.deleteVersion "mid" "1", .deleteVersion "mid" "2"]
    ++ [.copyDependencies "mid"] ++ [.registerEntry "mid" "3"]

/-- Concrete delete environment whose catalog describe reports not-found. -/
def c8WEnv : DeleteModelEnv :=
  ⟨.notFound, fun _ => ⟨"b", ""⟩, fun _ => [], fun _ => ⟨none⟩⟩

/-- A concrete model descriptor with no catalog entry. -/
def c8WSpec : JumpStartModelSpecs := ⟨"gone", "1", false, "t", "t", false⟩

/-- A concrete empty catalog. -/
def c8WCat : HubCatalog := ⟨fun _ => []⟩

/-- A concrete hub content document with one object-shaped dependency. -/
def c9Doc : HubContentDocument := ⟨[⟨"s3://src/k", "s3://dst/k", "Artifact"⟩]⟩

/-- Concrete delete environment whose bulk-delete response carries a present
but empty `Errors` field. -/
def c9CexEnv : DeleteModelEnv :=
  ⟨.found c9Doc, fun _ => ⟨"dst", "k"⟩, fun _ => [], fun _ => ⟨some []⟩⟩

/-- Concrete delete environment whose bulk-delete response has no `Errors`
field. -/
def c9WEnv : DeleteModelEnv :=
  ⟨.found c9Doc, fun _ => ⟨"dst", "k"⟩, fun _ => [], fun _ => ⟨none⟩⟩

/-- A concrete model descriptor for the delete pipeline. -/
def c9Spec : JumpStartModelSpecs := ⟨"mid", "1", false, "t", "t", false⟩

/-- Concrete catalog holding one live version of model "mid". -/
def c9Cat : HubCatalog := ⟨fun i => if i = "mid" then ["1"] else []⟩

/-- Concrete transfer environment where no object exists at all. -/
def c10WEnv : CopyEnv := ⟨fun _ => .notFound, fun _ _ => .ok ()⟩

end CuratedHub

namespace CuratedHub

/-- Helper: a finished unit of work contributes no failure entry iff it
succeeded. -/
theorem failure_of_error_eq_none_iff {α : Type} (r : Except String α) :
    failure_of_error r = none ↔ is_ok r = true := by
  cases r <;> simp [failure_of_error, is_ok]

/-- Helper: a failure entry extracted from a finished unit of work records
exactly the exception that unit raised. -/
theorem failure_of_error_eq_some_iff {α : Type} (r : Except String α)
    (f : FailureEntry) :
    failure_of_error r = some f ↔ r = .error f.exceptionMsg ∧ f = mkFailureEntry f.exceptionMsg := by
  cases r with
  | error e =>
    simp only [failure_of_error]
    constructor
    · intro h
      cases h
      exact ⟨rfl, rfl⟩
    · rintro ⟨h1, h2⟩
      cases h1
      exact congrArg some h2.symm
  | ok o => simp [failure_of_error]

/-- Helper: the copy executor's failure list is empty iff every task
succeeded. -/
theorem copy_failures_eq_nil_iff (env : CopyEnv)
    (copy_configs : List CopyContentConfig) :
    (copy_configs.map (run_copy_config env)).filterMap failureOf = [] ↔
      ∀ c ∈ copy_configs, is_ok (run_copy_config env c).1 = true := by
  rw [List.filterMap_eq_nil_iff]
  constructor
  · intro h c hc
    have := h _ (List.mem_map_of_mem _ hc)
    rw [failureOf, failure_of_error_eq_none_iff] at this
    exact this
  · intro h r hr
    obtain ⟨c, hc, rfl⟩ := List.mem_map.1 hr
    rw [failureOf, failure_of_error_eq_none_iff]
    exact h c hc

/-- Helper: the batch importer's failure list is empty iff every per-model
unit of work succeeded. -/
theorem import_failures_eq_nil_iff (runOne : JumpStartModelSpecs → Except String Unit)
    (model_specs : List JumpStartModelSpecs) :
    (model_specs.map runOne).filterMap failure_of_error = [] ↔
      ∀ m ∈ model_specs, is_ok (runOne m) = true := by
  rw [List.filterMap_eq_nil_iff]
  constructor
  · intro h m hm
    have := h _ (List.mem_map_of_mem _ hm)
    rw [failure_of_error_eq_none_iff] at this
    exact this
  · intro h r hr
    obtain ⟨m, hm, rfl⟩ := List.mem_map.1 hr
    rw [failure_of_error_eq_none_iff]
    exact h m hm

end CuratedHub

namespace CuratedHub

/-- Helper: `_copy_s3_reference` unfolded over the two ETag lookups — error
propagation, the skip branch on equal ETags, and the copy attempt otherwise. -/
theorem copy_s3_reference_cases (env : CopyEnv) (src dst : S3ObjectLocation) :
    copy_s3_reference env src dst =
      match get_s3_object_etag env src with
      | .error e => (.error e, [])
      | .ok src_etag =>
        match get_s3_object_etag env dst with
        | .error e => (.error e, [])
        | .ok dst_etag =>
          if src_etag = dst_etag then (.ok .skipped, [])
          else
            match env.copyRes src dst with
            | .ok _ => (.ok .copied, [(src, dst)])
            | .error e => (.error e, [(src, dst)]) := by
  rw [copy_s3_reference, is_s3_object_etag_different]
  cases get_s3_object_etag env src with
  | error e => rfl
  | ok a =>
    cases get_s3_object_etag env dst with
    | error e => rfl
    | ok b =>
      by_cases h : a = b
      · simp [h]
      · simp [h]

/-- Helper: a head call that is not a non-404 client error yields an ETag
value (possibly `none`) rather than an exception. -/
theorem get_s3_object_etag_ok (env : CopyEnv) (loc : S3ObjectLocation)
    (h : (env.head loc).is_head_error = false) :
    ∃ a, get_s3_object_etag env loc = .ok a := by
  cases hh : env.head loc with
  | found etag => exact ⟨some etag, by rw [get_s3_object_etag, hh]⟩
  | notFound => exact ⟨none, by rw [get_s3_object_etag, hh]⟩
  | headError code => rw [hh] at h; exact absurd h (by simp [HeadResult.is_head_error])

/-- Claim C10 (confirmed): when the head calls on both the source and the
destination report not-found, both ETags are `None`, the comparison sees them
as equal, and the task completes as a skip with no copy call and no error —
even though neither object exists. -/
theorem C10_both_absent_is_skip (env : CopyEnv) (src dst : S3ObjectLocation)
    (h1 : env.head src = .notFound) (h2 : env.head dst = .notFound) :
    copy_s3_reference env src dst = (.ok .skipped, []) := by
  rw [copy_s3_reference_cases]
  simp [get_s3_object_etag, h1, h2]

theorem C10_witness :
    c10WEnv.head ⟨"b", "s"⟩ = .notFound ∧ c10WEnv.head ⟨"b", "d"⟩ = .notFound ∧
      copy_s3_reference c10WEnv ⟨"b", "s"⟩ ⟨"b", "d"⟩ = (.ok .skipped, []) :=
  ⟨rfl, rfl, C10_both_absent_is_skip c10WEnv ⟨"b", "s"⟩ ⟨"b", "d"⟩ rfl rfl⟩

/-- Claim C2 (confirmed): provided neither head call raises a non-404 error,
the executor issues the copy call if and only if the source's ETag value
differs from the destination's; equal values are recorded as a skip with no
copy call; an absent destination (head not-found, ETag `None`) against an
existing source counts as different and the copy proceeds. -/
theorem C2_copy_iff_etag_different (env : CopyEnv) (src dst : S3ObjectLocation)
    (h1 : (env.head src).is_head_error = false)
    (h2 : (env.head dst).is_head_error = false) :
    ((copy_s3_reference env src dst).2 = [(src, dst)] ↔
      get_s3_object_etag env src ≠ get_s3_object_etag env dst)
    ∧ (get_s3_object_etag env src = get_s3_object_etag env dst →
      copy_s3_reference env src dst = (.ok .skipped, []))
    ∧ (env.head dst = .notFound → ∀ etag, env.head src = .found etag →
      (copy_s3_reference env src dst).2 = [(src, dst)]) := by
  obtain ⟨a, ha⟩ := get_s3_object_etag_ok env src h1
  obtain ⟨b, hb⟩ := get_s3_object_etag_ok env dst h2
  refine ⟨?_, ?_, ?_⟩
  · rw [copy_s3_reference_cases, ha, hb]
    by_cases hab : a = b
    · subst hab
      simp
    · simp only [hab, if_false]
      cases env.copyRes src dst <;> simp [ha, hb, hab]
  · intro heq
    rw [ha, hb] at heq
    have hab : a = b := by injection heq
    subst hab
    rw [copy_s3_reference_cases, ha, hb]
    simp
  · intro hdn etag hsf
    have ha' : get_s3_object_etag env src = .ok (some etag) := by
      rw [get_s3_object_etag, hsf]
    have hb' : get_s3_object_etag env dst = .ok none := by
      rw [get_s3_object_etag, hdn]
    rw [copy_s3_reference_cases, ha', hb']
    have : (some etag : Option String) ≠ none := by simp
    simp only [this, if_false]
    cases env.copyRes src dst <;> simp

theorem C2_witness :
    (c2WEnv.head c2WSrc).is_head_error = false
    ∧ (c2WEnv.head c2WDst).is_head_error = false
    ∧ c2WEnv.head c2WDst = .notFound
    ∧ c2WEnv.head c2WSrc = .found "e1"
    ∧ (copy_s3_reference c2WEnv c2WSrc c2WDst).2 = [(c2WSrc, c2WDst)] :=
  ⟨rfl, rfl, rfl, rfl,
    (C2_copy_iff_etag_different c2WEnv c2WSrc c2WDst rfl rfl).2.2 rfl "e1" rfl⟩

/-- Claim C3 (confirmed): synchronization is idempotent — if a first run
raises no error and afterwards each task's destination ETag value equals its
source's (and the heads do not error), then a second run of the same tasks
records every task as skipped, issues zero copy calls and raises no error. -/
theorem C3_second_run_all_skipped (env1 env2 : CopyEnv)
    (copy_configs : List CopyContentConfig)
    (h1 : (parallel_execute_copy_configs env1 copy_configs).1 = .ok ())
    (h2 : ∀ cfg ∈ copy_configs,
      (env2.head cfg.src).is_head_error = false ∧
      get_s3_object_etag env2 cfg.src = get_s3_object_etag env2 cfg.dst) :
    (∀ cfg ∈ copy_configs, run_copy_config env2 cfg = (.ok .skipped, []))
    ∧ (parallel_execute_copy_configs env2 copy_configs).1 = .ok ()
    ∧ (parallel_execute_copy_configs env2 copy_configs).2 = [] := by
  have hskip : ∀ cfg ∈ copy_configs, run_copy_config env2 cfg = (.ok .skipped, []) := by
    intro cfg hc
    obtain ⟨hhe, heq⟩ := h2 cfg hc
    obtain ⟨a, ha⟩ := get_s3_object_etag_ok env2 cfg.src hhe
    have hb : get_s3_object_etag env2 cfg.dst = .ok a := heq ▸ ha
    rw [run_copy_config, copy_s3_reference_cases, ha, hb]
    simp
  have hfail : (copy_configs.map (run_copy_config env2)).filterMap failureOf = [] := by
    rw [copy_failures_eq_nil_iff]
    intro c hc
    rw [hskip c hc]
    rfl
  refine ⟨hskip, ?_, ?_⟩
  · simp only [parallel_execute_copy_configs, hfail]
    rfl
  · simp only [parallel_execute_copy_configs]
    rw [List.flatten_eq_nil_iff]
    intro xs hxs
    obtain ⟨r, hr, rfl⟩ := List.mem_map.1 hxs
    obtain ⟨c, hc, rfl⟩ := List.mem_map.1 hr
    rw [hskip c hc]

theorem C3_witness :
    (parallel_execute_copy_configs c3WEnv1 c3WCfgs).1 = .ok ()
    ∧ (∀ cfg ∈ c3WCfgs,
      (c3WEnv2.head cfg.src).is_head_error = false ∧
      get_s3_object_etag c3WEnv2 cfg.src = get_s3_object_etag c3WEnv2 cfg.dst)
    ∧ (parallel_execute_copy_configs c3WEnv2 c3WCfgs).1 = .ok ()
    ∧ (parallel_execute_copy_configs c3WEnv2 c3WCfgs).2 = [] :=
  ⟨by decide, by decide,
    (C3_second_run_all_skipped c3WEnv1 c3WEnv2 c3WCfgs (by decide) (by decide)).2⟩

end CuratedHub

namespace CuratedHub

/-- Helper: a non-nil list is not empty in the Boolean sense. -/
theorem isEmpty_false_of_ne_nil {α : Type} {l : List α} (h : l ≠ []) :
    l.isEmpty = false := by
  cases l with
  | nil => exact absurd rfl h
  | cons a t => rfl

/-- Helper: the executor's raised-or-ok component, unfolded. -/
theorem parallel_execute_fst (env : CopyEnv)
    (copy_configs : List CopyContentConfig) :
    (parallel_execute_copy_configs env copy_configs).1 =
      if ((copy_configs.map (run_copy_config env)).filterMap failureOf).isEmpty
      then .ok ()
      else .error ((copy_configs.map (run_copy_config env)).filterMap failureOf) :=
  rfl

/-- Helper: the batch importer's result, unfolded. -/
theorem import_models_eq (runOne : JumpStartModelSpecs → Except String Unit)
    (model_specs : List JumpStartModelSpecs) :
    import_models runOne model_specs =
      if ((model_specs.map runOne).filterMap failure_of_error).isEmpty
      then .ok ()
      else .error ((model_specs.map runOne).filterMap failure_of_error) :=
  rfl

/-- Claim C1 (corrected): the transfer executor runs every task (the copy side
effects of every task occur, also after another task failed), collects every
outcome, raises no error when every task succeeded, and otherwise raises
exactly one aggregate error whose entries are precisely the failing tasks'
underlying errors with their formatted tracebacks; the batch importer
aggregates per-model failures the same way.  (The aggregate error does NOT
carry the task label, source or destination — see the counterexample.) -/
theorem C1_full_drain_aggregation (env : CopyEnv)
    (copy_configs : List CopyContentConfig)
    (runOne : JumpStartModelSpecs → Except String Unit)
    (model_specs : List JumpStartModelSpecs) :
    ((parallel_execute_copy_configs env copy_configs).2
        = (copy_configs.map (fun c => (run_copy_config env c).2)).flatten)
    ∧ ((parallel_execute_copy_configs env copy_configs).1 = .ok ()
        ↔ ∀ c ∈ copy_configs, is_ok (run_copy_config env c).1 = true)
    ∧ (∀ fs, (parallel_execute_copy_configs env copy_configs).1 = .error fs →
        (∀ c ∈ copy_configs, ∀ e, (run_copy_config env c).1 = .error e →
          mkFailureEntry e ∈ fs)
        ∧ (∀ f ∈ fs, ∃ c ∈ copy_configs,
            (run_copy_config env c).1 = .error f.exceptionMsg))
    ∧ (import_models runOne model_specs = .ok ()
        ↔ ∀ m ∈ model_specs, is_ok (runOne m) = true)
    ∧ (∀ fs, import_models runOne model_specs = .error fs →
        (∀ m ∈ model_specs, ∀ e, runOne m = .error e → mkFailureEntry e ∈ fs)
        ∧ (∀ f ∈ fs, ∃ m ∈ model_specs, runOne m = .error f.exceptionMsg)) := by
  have hiffC := copy_failures_eq_nil_iff env copy_configs
  have hiffI := import_failures_eq_nil_iff runOne model_specs
  refine ⟨?_, ?_, ?_, ?_, ?_⟩
  · show ((copy_configs.map (run_copy_config env)).map Prod.snd).flatten = _
    rw [List.map_map]
    rfl
  · rw [parallel_execute_fst]
    rcases eq_or_ne ((copy_configs.map (run_copy_config env)).filterMap failureOf) []
      with hemp | hemp
    · simp only [hemp, List.isEmpty_nil, if_true]
      exact ⟨fun _ => hiffC.1 hemp, fun _ => trivial⟩
    · have hne : ((copy_configs.map (run_copy_config env)).filterMap failureOf).isEmpty
          = false := isEmpty_false_of_ne_nil hemp
      simp only [hne, Bool.false_eq_true, if_false]
      exact iff_of_false (by simp) (fun hall => hemp (hiffC.2 hall))
  · intro fs hfs
    rw [parallel_execute_fst] at hfs
    rcases eq_or_ne ((copy_configs.map (run_copy_config env)).filterMap failureOf) []
      with hemp | hemp
    · rw [hemp] at hfs
      simp at hfs
    · rw [if_neg (by rw [isEmpty_false_of_ne_nil hemp]; simp)] at hfs
      have hfs' : (copy_configs.map (run_copy_config env)).filterMap failureOf = fs := by
        injection hfs
      subst hfs'
      constructor
      · intro c hc e he
        exact List.mem_filterMap.2
          ⟨run_copy_config env c, List.mem_map_of_mem _ hc,
            by rw [failureOf, he]; rfl⟩
      · intro f hf
        obtain ⟨r, hr, hsome⟩ := List.mem_filterMap.1 hf
        obtain ⟨c, hc, rfl⟩ := List.mem_map.1 hr
        rw [failureOf, failure_of_error_eq_some_iff] at hsome
        exact ⟨c, hc, hsome.1⟩
  · rw [import_models_eq]
    rcases eq_or_ne ((model_specs.map runOne).filterMap failure_of_error) []
      with hemp | hemp
    · simp only [hemp, List.isEmpty_nil, if_true]
      exact ⟨fun _ => hiffI.1 hemp, fun _ => trivial⟩
    · have hne : ((model_specs.map runOne).filterMap failure_of_error).isEmpty
          = false := isEmpty_false_of_ne_nil hemp
      simp only [hne, Bool.false_eq_true, if_false]
      exact iff_of_false (by simp) (fun hall => hemp (hiffI.2 hall))
  · intro fs hfs
    rw [import_models_eq] at hfs
    rcases eq_or_ne ((model_specs.map runOne).filterMap failure_of_error) []
      with hemp | hemp
    · rw [hemp] at hfs
      simp at hfs
    · rw [if_neg (by rw [isEmpty_false_of_ne_nil hemp]; simp)] at hfs
      have hfs' : (model_specs.map runOne).filterMap failure_of_error = fs := by
        injection hfs
      subst hfs'
      constructor
      · intro m hm e he
        exact List.mem_filterMap.2
          ⟨runOne m, List.mem_map_of_mem _ hm, by rw [he]; rfl⟩
      · intro f hf
        obtain ⟨r, hr, hsome⟩ := List.mem_filterMap.1 hf
        obtain ⟨m, hm, rfl⟩ := List.mem_map.1 hr
        rw [failure_of_error_eq_some_iff] at hsome
        exact ⟨m, hm, hsome.1⟩

theorem C1_witness :
    (parallel_execute_copy_configs c1WEnv [c1WCfg]).1 = .ok () :=
  (C1_full_drain_aggregation c1WEnv [c1WCfg] (fun _ => .ok ()) []).2.1.mpr
    (by decide)

/-- Claim C1 counterexample: two single-task runs whose tasks differ in label
and destination produce IDENTICAL aggregate errors, so the raised error cannot
enumerate the failing task's label, source or destination — refuting the
claim's "enumerates every failure with its task label, source, destination"
part (the error carries only the underlying exception and its traceback). -/
theorem C1_counterexample :
    (parallel_execute_copy_configs c1CexEnv [c1CfgA]).1
        = (parallel_execute_copy_configs c1CexEnv [c1CfgB]).1
    ∧ is_ok (parallel_execute_copy_configs c1CexEnv [c1CfgA]).1 = false
    ∧ c1CfgA.logging_name ≠ c1CfgB.logging_name
    ∧ c1CfgA.dst ≠ c1CfgB.dst := by
  refine ⟨rfl, rfl, by decide, by decide⟩

end CuratedHub

namespace CuratedHub

/-- Helper: a key obtained by appending a separator is directory-shaped. -/
theorem is_directory_append_sep (bucket p : String) :
    (S3ObjectLocation.mk bucket (p ++ "/")).is_directory = true := by
  rw [S3ObjectLocation.is_directory]
  have hdata : (p ++ "/").data = p.data ++ ['/'] := String.data_append p "/"
  rw [hdata, List.getLast?_concat]
  rfl

/-- Helper: a key whose last character is not a separator is not
directory-shaped. -/
theorem is_directory_no_sep (bucket p : String)
    (h : p.data.getLast? ≠ some '/') :
    (S3ObjectLocation.mk bucket p).is_directory = false := by
  rw [S3ObjectLocation.is_directory]
  exact beq_eq_false_iff_ne.2 h

/-- Claim C4 (confirmed): the directory copy-plan expansion emits exactly one
task per object listed under the source prefix; each task's destination key is
the destination prefix joined to the object's filename with exactly one
separator; and the emitted plan is the same whether the destination prefix is
passed with or without its trailing separator. -/
theorem C4_dir_expansion (listKeys : S3ObjectLocation → List String)
    (srcDir : S3ObjectLocation) (bucket p : String)
    (h : p.data.getLast? ≠ some '/') :
    (get_s3_dir_copy_configs listKeys srcDir ⟨bucket, p⟩
        = get_s3_dir_copy_configs listKeys srcDir ⟨bucket, p ++ "/"⟩)
    ∧ (get_s3_dir_copy_configs listKeys srcDir ⟨bucket, p⟩).length
        = (listKeys srcDir).length
    ∧ (∀ cfg ∈ get_s3_dir_copy_configs listKeys srcDir ⟨bucket, p⟩,
        cfg.src.bucket = srcDir.bucket ∧ cfg.src.key ∈ listKeys srcDir
        ∧ cfg.dst = ⟨bucket, p ++ "/" ++ cfg.src.get_filename⟩)
    ∧ (∀ k ∈ listKeys srcDir,
        ∃ cfg ∈ get_s3_dir_copy_configs listKeys srcDir ⟨bucket, p⟩,
          cfg.src = ⟨srcDir.bucket, k⟩) := by
  have hdir := is_directory_append_sep bucket p
  have hnodir := is_directory_no_sep bucket p h
  refine ⟨?_, ?_, ?_, ?_⟩
  · rw [get_s3_dir_copy_configs, get_s3_dir_copy_configs]
    apply List.map_congr_left
    intro k hk
    simp only [hnodir, hdir, Bool.false_eq_true, if_false, if_true]
  · rw [get_s3_dir_copy_configs, List.length_map]
  · intro cfg hcfg
    rw [get_s3_dir_copy_configs] at hcfg
    obtain ⟨k, hk, rfl⟩ := List.mem_map.1 hcfg
    simp only [hnodir, Bool.false_eq_true, if_false]
    exact ⟨trivial, hk, trivial⟩
  · intro k hk
    exact ⟨_, List.mem_map_of_mem _ hk, rfl⟩

theorem C4_witness :
    (("c/d" : String).data.getLast? ≠ some '/')
    ∧ (get_s3_dir_copy_configs c4WListKeys c4WSrcDir ⟨"dstb", "c/d"⟩
        = get_s3_dir_copy_configs c4WListKeys c4WSrcDir ⟨"dstb", "c/d" ++ "/"⟩)
    ∧ (get_s3_dir_copy_configs c4WListKeys c4WSrcDir ⟨"dstb", "c/d"⟩).length
        = (c4WListKeys c4WSrcDir).length
    ∧ get_s3_dir_copy_configs c4WListKeys c4WSrcDir ⟨"dstb", "c/d"⟩
        = [⟨⟨"pub", "a/b/x.bin"⟩, ⟨"dstb", "c/d/x.bin"⟩, "uncompressed artifact x.bin"⟩,
           ⟨⟨"pub", "a/b/y.bin"⟩, ⟨"dstb", "c/d/y.bin"⟩, "uncompressed artifact y.bin"⟩] :=
  have hmain := C4_dir_expansion c4WListKeys c4WSrcDir "dstb" "c/d" (by decide)
  ⟨by decide, hmain.1, hmain.2.1, by decide⟩

end CuratedHub

namespace CuratedHub

/-- Helper: no uncompressed-artifact task can have a logging name shorter than
the fixed "uncompressed artifact " marker. -/
theorem uncompressed_logging_name_ne (f s : String) (h : s.length < 22) :
    "uncompressed artifact " ++ f ≠ s := by
  intro he
  have hlen := congrArg String.length he
  rw [String.length_append] at hlen
  have h22 : ("uncompressed artifact " : String).length = 22 := rfl
  rw [h22] at hlen
  omega

/-- Helper: a directory expansion contributes no task with a short fixed
logging name. -/
theorem countP_name_dir_configs (listKeys : S3ObjectLocation → List String)
    (srcDir dstDir : S3ObjectLocation) (s : String) (h : s.length < 22) :
    (get_s3_dir_copy_configs listKeys srcDir dstDir).countP
      (fun cfg => cfg.logging_name == s) = 0 := by
  rw [get_s3_dir_copy_configs, List.countP_map]
  apply List.countP_eq_zero.2
  intro k hk
  simp only [Function.comp_apply, beq_iff_eq]
  exact uncompressed_logging_name_ne _ s h

/-- Helper: every training-dataset task is labelled "training dataset". -/
theorem countP_name_dataset_configs (c : ContentCopier) (m : JumpStartModelSpecs)
    (s : String) (h : s ≠ "training dataset") :
    (get_copy_configs_for_training_dataset c m).countP
      (fun cfg => cfg.logging_name == s) = 0 := by
  rw [get_copy_configs_for_training_dataset, List.countP_map]
  apply List.countP_eq_zero.2
  intro k hk
  simp only [Function.comp_apply, beq_iff_eq]
  exact fun hh => h hh.symm

/-- Helper: the inference dependency configs contain the inference-script task
exactly when prepack is not supported. -/
theorem countP_inference_script_inference_deps (c : ContentCopier)
    (m : JumpStartModelSpecs) :
    (get_copy_configs_for_inference_dependencies c m).countP
      (fun cfg => cfg.logging_name == "inference script")
      = if m.supports_prepacked_inference then 0 else 1 := by
  have hdir0 := fun srcD dstD =>
    countP_name_dir_configs c.find_objects_under_dir srcD dstD
      "inference script" (by decide)
  by_cases hmode : m.hosting_artifact_s3_data_type = UNCOMPRESSED_ARTIFACTS_VALUE <;>
    cases hpre : m.supports_prepacked_inference <;>
      simp [get_copy_configs_for_inference_dependencies, List.countP_append, hmode,
        hpre, hdir0, List.countP_cons, List.countP_nil]

/-- Helper: the inference dependency configs never contain a training-script
task. -/
theorem countP_training_script_inference_deps (c : ContentCopier)
    (m : JumpStartModelSpecs) :
    (get_copy_configs_for_inference_dependencies c m).countP
      (fun cfg => cfg.logging_name == "training script") = 0 := by
  have hdir0 := fun srcD dstD =>
    countP_name_dir_configs c.find_objects_under_dir srcD dstD
      "training script" (by decide)
  by_cases hmode : m.hosting_artifact_s3_data_type = UNCOMPRESSED_ARTIFACTS_VALUE <;>
    cases hpre : m.supports_prepacked_inference <;>
      simp [get_copy_configs_for_inference_dependencies, List.countP_append, hmode,
        hpre, hdir0, List.countP_cons, List.countP_nil]

/-- Helper: the training dependency configs contain exactly one
training-script task, with no condition on prepack. -/
theorem countP_training_script_training_deps (c : ContentCopier)
    (m : JumpStartModelSpecs) :
    (get_copy_configs_for_training_dependencies c m).countP
      (fun cfg => cfg.logging_name == "training script") = 1 := by
  have hdir0 := fun srcD dstD =>
    countP_name_dir_configs c.find_objects_under_dir srcD dstD
      "training script" (by decide)
  have hds0 := countP_name_dataset_configs c m "training script" (by decide)
  by_cases hmode : m.training_artifact_s3_data_type = UNCOMPRESSED_ARTIFACTS_VALUE <;>
    simp [get_copy_configs_for_training_dependencies, List.countP_append, hmode,
      hdir0, hds0, List.countP_cons, List.countP_nil]

/-- Helper: the training dependency configs never contain an inference-script
task. -/
theorem countP_inference_script_training_deps (c : ContentCopier)
    (m : JumpStartModelSpecs) :
    (get_copy_configs_for_training_dependencies c m).countP
      (fun cfg => cfg.logging_name == "inference script") = 0 := by
  have hdir0 := fun srcD dstD =>
    countP_name_dir_configs c.find_objects_under_dir srcD dstD
      "inference script" (by decide)
  have hds0 := countP_name_dataset_configs c m "inference script" (by decide)
  by_cases hmode : m.training_artifact_s3_data_type = UNCOMPRESSED_ARTIFACTS_VALUE <;>
    simp [get_copy_configs_for_training_dependencies, List.countP_append, hmode,
      hdir0, hds0, List.countP_cons, List.countP_nil]

/-- Claim C5 (corrected): the copy plan contains the inference-script task iff
the inference artifact is not pre-packed; when training is supported, the plan
repeats the artifact rule for the training stage but contains the
training-script task UNCONDITIONALLY — the pre-pack check is not applied to
the training script (see the counterexample). -/
theorem C5_script_inclusion (c : ContentCopier) (m : JumpStartModelSpecs) :
    ((copy_hub_content_dependencies_configs c m).countP
        (fun cfg => cfg.logging_name == "inference script")
      = if m.supports_prepacked_inference then 0 else 1)
    ∧ (m.training_supported = true →
      (copy_hub_content_dependencies_configs c m).countP
        (fun cfg => cfg.logging_name == "training script") = 1)
    ∧ (m.training_supported = false →
      (copy_hub_content_dependencies_configs c m).countP
        (fun cfg => cfg.logging_name == "training script") = 0) := by
  refine ⟨?_, ?_, ?_⟩
  · cases htr : m.training_supported <;>
      simp [copy_hub_content_dependencies_configs, List.countP_append, htr,
        countP_inference_script_inference_deps,
        countP_inference_script_training_deps,
        get_copy_configs_for_demo_notebook_dependencies,
        get_copy_configs_for_markdown_dependencies,
        List.countP_cons, List.countP_nil]
  · intro htr
    simp [copy_hub_content_dependencies_configs, List.countP_append, htr,
      countP_training_script_inference_deps,
      countP_training_script_training_deps,
      get_copy_configs_for_demo_notebook_dependencies,
      get_copy_configs_for_markdown_dependencies,
      List.countP_cons, List.countP_nil]
  · intro htr
    simp [copy_hub_content_dependencies_configs, List.countP_append, htr,
      countP_training_script_inference_deps,
      get_copy_configs_for_demo_notebook_dependencies,
      get_copy_configs_for_markdown_dependencies,
      List.countP_cons, List.countP_nil]

theorem C5_witness :
    (copy_hub_content_dependencies_configs c5Copier c5WSpec).countP
        (fun cfg => cfg.logging_name == "inference script") = 1
    ∧ (copy_hub_content_dependencies_configs c5Copier c5WSpec).countP
        (fun cfg => cfg.logging_name == "training script") = 1 :=
  have h := C5_script_inclusion c5Copier c5WSpec
  ⟨h.1.trans (by decide), h.2.1 rfl⟩

/-- Claim C5 counterexample: a model descriptor with a pre-packed inference
artifact and training support still gets a training-script task in its copy
plan (while the inference-script task is indeed suppressed), refuting the
claim's "the training-script task is also included only if the artifact is not
pre-packed". -/
theorem C5_counterexample :
    c5CexSpec.supports_prepacked_inference = true
    ∧ c5CexSpec.training_supported = true
    ∧ (copy_hub_content_dependencies_configs c5Copier c5CexSpec).countP
        (fun cfg => cfg.logging_name == "training script") = 1
    ∧ (copy_hub_content_dependencies_configs c5Copier c5CexSpec).countP
        (fun cfg => cfg.logging_name == "inference script") = 0 := by
  decide

end CuratedHub

namespace CuratedHub

/-- Helper: when no predicate call raises, the raising filter behaves as a
plain filter on "predicate returned true". -/
theorem list_filter_raising_ok (p : JumpStartModelSpecs → Except String Bool)
    (xs : List JumpStartModelSpecs) (h : ∀ m ∈ xs, is_ok (p m) = true) :
    list_filter_raising p xs = .ok (xs.filter (fun m => decide (p m = .ok true))) := by
  induction xs with
  | nil => rfl
  | cons x rest ih =>
    have hx := h x (List.mem_cons_self x rest)
    have hrest := ih (fun m hm => h m (List.mem_cons_of_mem x hm))
    rcases hpx : p x with e | b
    · rw [hpx] at hx
      simp [is_ok] at hx
    · cases b with
      | false =>
        rw [list_filter_raising, hpx, hrest, List.filter_cons]
        simp [hpx]
      | true =>
        rw [list_filter_raising, hpx, hrest, List.filter_cons]
        simp [hpx]

/-- Helper: the first raising predicate call aborts the raising filter with an
exception. -/
theorem list_filter_raising_error (p : JumpStartModelSpecs → Except String Bool)
    (xs : List JumpStartModelSpecs) (h : ∃ m ∈ xs, is_ok (p m) = false) :
    ∃ e, list_filter_raising p xs = .error e := by
  induction xs with
  | nil => simp at h
  | cons x rest ih =>
    rcases hpx : p x with e | b
    · exact ⟨e, by rw [list_filter_raising, hpx]⟩
    · obtain ⟨m, hm, hfail⟩ := h
      rcases List.mem_cons.1 hm with rfl | hmr
      · rw [hpx] at hfail
        simp [is_ok] at hfail
      · obtain ⟨e', herr⟩ := ih ⟨m, hmr, hfail⟩
        cases b with
        | false => exact ⟨e', by rw [list_filter_raising, hpx]; exact herr⟩
        | true => exact ⟨e', by rw [list_filter_raising, hpx, herr]⟩

/-- Helper: a successful raising filter returns exactly the plain filter. -/
theorem list_filter_raising_ok_char (p : JumpStartModelSpecs → Except String Bool)
    (xs : List JumpStartModelSpecs) (l : List JumpStartModelSpecs)
    (h : list_filter_raising p xs = .ok l) :
    l = xs.filter (fun m => decide (p m = .ok true)) := by
  induction xs generalizing l with
  | nil =>
    rw [list_filter_raising] at h
    injection h with h'
    rw [← h']
    rfl
  | cons x rest ih =>
    rw [list_filter_raising] at h
    rcases hpx : p x with e | b
    · rw [hpx] at h
      exact absurd h (by simp)
    · rw [hpx] at h
      cases b with
      | false =>
        have hrest := ih l h
        rw [List.filter_cons]
        simp only [hpx]
        simpa using hrest
      | true =>
        rcases hrec : list_filter_raising p rest with e' | l'
        · rw [hrec] at h
          exact absurd h (by simp)
        · rw [hrec] at h
          injection h with h'
          have hrest := ih l' hrec
          rw [← h', List.filter_cons, ← hrest]
          simp [hpx]

/-- Claim C6 (confirmed): with `force_update` every requested version gets
imported with no catalog check; without it, a version is imported iff the
destination-catalog describe of that exact id and version reports not-found (a
pure presence check), and a describe error other than not-found propagates
immediately as the sync result. -/
theorem C6_sync_presence_check (describe : JumpStartModelSpecs → DescribeResult)
    (model_specs : List JumpStartModelSpecs) :
    (sync describe true model_specs = .ok model_specs)
    ∧ ((∀ m ∈ model_specs, (describe m).is_describe_error = false) →
        sync describe false model_specs
          = .ok (model_specs.filter (fun m => decide (describe m = .notFound))))
    ∧ ((∃ m ∈ model_specs, (describe m).is_describe_error = true) →
        ∃ code, sync describe false model_specs = .error code)
    ∧ (∀ l, sync describe false model_specs = .ok l →
        ∀ m, m ∈ l ↔ m ∈ model_specs ∧ describe m = .notFound) := by
  refine ⟨rfl, ?_, ?_, ?_⟩
  · intro h
    rw [sync, if_neg (by simp)]
    rw [list_filter_raising_ok _ _ ?hok]
    case hok =>
      intro m hm
      have hmm := h m hm
      cases hdm : describe m <;>
        simp [model_needs_update, hdm] <;>
        · rw [hdm] at hmm
          simp [DescribeResult.is_describe_error, is_ok] at hmm ⊢
    congr 1
    apply List.filter_congr
    intro m hm
    cases hdm : describe m <;> simp [model_needs_update, hdm]
  · intro h
    obtain ⟨m, hm, herr⟩ := h
    rw [sync, if_neg (by simp)]
    apply list_filter_raising_error
    refine ⟨m, hm, ?_⟩
    cases hdm : describe m <;> rw [hdm] at herr <;>
      simp [DescribeResult.is_describe_error] at herr <;>
      simp [model_needs_update, is_ok]
  · intro l hl m
    rw [sync, if_neg (by simp)] at hl
    have hchar := list_filter_raising_ok_char _ _ _ hl
    subst hchar
    rw [List.mem_filter]
    constructor
    · rintro ⟨hmem, hdec⟩
      refine ⟨hmem, ?_⟩
      cases hdm : describe m <;> rw [hdm] at hdec <;>
        simp [model_needs_update] at hdec ⊢
    · rintro ⟨hmem, hnf⟩
      exact ⟨hmem, by simp [model_needs_update, hnf]⟩

theorem C6_witness :
    (sync c6WDescribe true c6WSpecs = .ok c6WSpecs)
    ∧ (∀ m ∈ c6WSpecs, (c6WDescribe m).is_describe_error = false)
    ∧ sync c6WDescribe false c6WSpecs
        = .ok (c6WSpecs.filter (fun m => decide (c6WDescribe m = .notFound))) :=
  have h := C6_sync_presence_check c6WDescribe c6WSpecs
  ⟨h.1, by decide, h.2.1 (by decide)⟩

end CuratedHub

namespace CuratedHub

/-- Claim C7 (confirmed): a completed import first deletes every existing
catalog version of the model id, then copies dependencies, then registers the
new entry — the trace is exactly in that order — and afterwards the catalog
holds exactly the one new version of that model id (hence at most one live
version) while other model ids are untouched. -/
theorem C7_import_order_single_version (cat : HubCatalog)
    (m : JumpStartModelSpecs) (copyRes : Except String Unit)
    (cat' : HubCatalog) (tr : List HubOp)
    (h : import_model cat m copyRes = .ok (cat', tr)) :
    tr = (cat.versions m.model_id).map (fun v => HubOp.deleteVersion m.model_id v)
        ++ [HubOp.copyDependencies m.model_id]
        ++ [HubOp.registerEntry m.model_id m.version]
    ∧ cat'.versions m.model_id = [m.version]
    ∧ (∀ i, i ≠ m.model_id → cat'.versions i = cat.versions i)
    ∧ (cat'.versions m.model_id).length ≤ 1 := by
  cases copyRes with
  | error e => simp [import_model] at h
  | ok u =>
    rw [import_model] at h
    simp only [Except.ok.injEq, Prod.mk.injEq] at h
    obtain ⟨hcat, htr⟩ := h
    subst hcat
    subst htr
    refine ⟨?_, ?_, ?_, ?_⟩
    · simp [delete_all_versions_of_model, import_hub_content_entry]
    · simp [delete_all_versions_of_model, import_hub_content_entry]
    · intro i hi
      simp [delete_all_versions_of_model, import_hub_content_entry, hi]
    · simp [delete_all_versions_of_model, import_hub_content_entry]

theorem C7_witness :
    c7TrW = (c7CatW.versions c7SpecW.model_id).map
        (fun v => HubOp.deleteVersion c7SpecW.model_id v)
      ++ [HubOp.copyDependencies c7SpecW.model_id]
      ++ [HubOp.registerEntry c7SpecW.model_id c7SpecW.version]
    ∧ c7CatW'.versions c7SpecW.model_id = [c7SpecW.version]
    ∧ (c7CatW'.versions c7SpecW.model_id).length ≤ 1 :=
  have h := C7_import_order_single_version c7CatW c7SpecW (.ok ()) c7CatW' c7TrW rfl
  ⟨h.1, h.2.1, h.2.2.2⟩

/-- Claim C8 (confirmed): deleting a model with no catalog entry is a no-op —
the dependency-deletion step returns on the not-found describe without any S3
delete call, the version list is empty so no catalog version is deleted, and
no error is raised. -/
theorem C8_delete_absent_noop (env : DeleteModelEnv) (m : JumpStartModelSpecs)
    (cat : HubCatalog) (h1 : env.describeRes = .notFound)
    (h2 : cat.versions m.model_id = []) :
    delete_model_from_curated_hub env m cat = (.ok (), []) := by
  have hdep : delete_model_dependencies_no_content_noop env m = (.ok (), []) := by
    rw [delete_model_dependencies_no_content_noop, h1]
  rw [delete_model_from_curated_hub, hdep, h2]
  rfl

theorem C8_witness :
    c8WEnv.describeRes = .notFound
    ∧ c8WCat.versions c8WSpec.model_id = []
    ∧ delete_model_from_curated_hub c8WEnv c8WSpec c8WCat = (.ok (), []) :=
  ⟨rfl, rfl, C8_delete_absent_noop c8WEnv c8WSpec c8WCat rfl rfl⟩

/-- Claim C9 (corrected): when the catalog entry exists, the delete raises iff
the bulk-delete response carries an `Errors` field AT ALL (present but empty
also raises — see the counterexample, refuting "non-empty"); on any such error
the pipeline stops after the bulk delete, so no catalog version is deleted. -/
theorem C9_bulk_delete_gate (env : DeleteModelEnv) (m : JumpStartModelSpecs)
    (cat : HubCatalog) (doc : HubContentDocument)
    (h : env.describeRes = .found doc) :
    ((delete_model_from_curated_hub env m cat).1 = .ok ()
      ↔ (env.delete_objects (dependency_s3_keys_of env doc)).errorsField = none)
    ∧ (∀ errs,
        (env.delete_objects (dependency_s3_keys_of env doc)).errorsField = some errs →
        delete_model_from_curated_hub env m cat
          = (.error ("Failed to delete all dependencies of model " ++ m.model_id
              ++ " : " ++ String.intercalate ", " errs),
             [.bulkDelete (dependency_s3_keys_of env doc)])) := by
  rcases hresp : (env.delete_objects (dependency_s3_keys_of env doc)).errorsField
    with _ | errs
  · have hdep : delete_model_dependencies_no_content_noop env m
        = (.ok (), [.bulkDelete (dependency_s3_keys_of env doc)]) := by
      rw [delete_model_dependencies_no_content_noop, h]
      simp only [hresp]
    constructor
    · rw [delete_model_from_curated_hub, hdep]
      simp
    · intro errs hcontra
      exact absurd hcontra (by simp)
  · have hdep : delete_model_dependencies_no_content_noop env m
        = (.error ("Failed to delete all dependencies of model " ++ m.model_id
            ++ " : " ++ String.intercalate ", " errs),
           [.bulkDelete (dependency_s3_keys_of env doc)]) := by
      rw [delete_model_dependencies_no_content_noop, h]
      simp only [hresp]
    constructor
    · rw [delete_model_from_curated_hub, hdep]
      simp [hresp]
    · intro errs' heq
      injection heq with h'
      subst h'
      rw [delete_model_from_curated_hub, hdep]

theorem C9_witness :
    c9WEnv.describeRes = .found c9Doc
    ∧ ((delete_model_from_curated_hub c9WEnv c9Spec c9Cat).1 = .ok ()
      ↔ (c9WEnv.delete_objects (dependency_s3_keys_of c9WEnv c9Doc)).errorsField
          = none) :=
  ⟨rfl, (C9_bulk_delete_gate c9WEnv c9Spec c9Cat c9Doc rfl).1⟩

/-- Claim C9 counterexample: a bulk-delete response whose `Errors` field is
present but EMPTY still makes the delete raise — the code tests for the key's
presence, not for a non-empty error list — refuting the claim's "if and only
if ... non-empty errors field".  The trace also shows the catalog version
(still live in `c9Cat`) is not deleted. -/
theorem C9_counterexample :
    (c9CexEnv.delete_objects (dependency_s3_keys_of c9CexEnv c9Doc)).errorsField
        = some []
    ∧ (delete_model_from_curated_hub c9CexEnv c9Spec c9Cat).1
        = .error "Failed to delete all dependencies of model mid : "
    ∧ (delete_model_from_curated_hub c9CexEnv c9Spec c9Cat).2
        = [.bulkDelete ["k"]]
    ∧ c9Cat.versions c9Spec.model_id = ["1"] := by
  decide

end CuratedHub
